import Mathlib

/-!
Verification development for the dweepbot autonomous-agent runtime.

The definitions below are shallow embeddings of the Python source:
`src/agent.py` (AutonomousAgent), `src/base.py` (ToolPlugin, ToolRegistry),
`src/planner.py` (Planner), `src/file_ops.py` (file tools).

Modelling conventions:
- Python floats for costs, times and the 0.8 / 0.9 / 0.2 factors are
  modelled over ℚ (0.8 as 4/5, 0.9 as 9/10, 0.2 as 1/5); `int(x)` for
  x ≥ 0 is Nat floor division.
- Python dicts used as caches are modelled as association lists of
  entries; the md5 cache-key hash is abstracted as an injective
  encoding of the hashed data.
- Wall-clock time is an explicit `Nat`/`ℚ` parameter.
-/

namespace DweepBot

/-- Agent phases (`AgentPhase` in the core types). -/
inductive AgentPhase where
  | initializing
  | planning
  | executing
  | observing
  | replanning
  | completed
  | failed
  | stopped
deriving DecidableEq, Repr

/-- Task status values (`TaskStatus` in the core types). -/
inductive TaskStatus where
  | pending
  | planning
  | running
  | completed
  | failed
  | skipped
deriving DecidableEq, Repr

/-- Tool capabilities (`ToolCapability` in src/base.py). -/
inductive Capability where
  | read_only
  | writable
  | destructive
  | network
  | expensive
  | fast
  | batchable
  | streaming
deriving DecidableEq, Repr

/-- `AutonomousAgent.pause` (src/agent.py lines 1363-1368): if the phase is
not one of completed/failed/stopped, it is set to stopped; otherwise it is
left unchanged. -/
def pausePhase (p : AgentPhase) : AgentPhase :=
  if p = .completed ∨ p = .failed ∨ p = .stopped then p
  else .stopped

/-! ## Budget enforcement (src/agent.py) -/

/-- The `Context.limits` record consulted by the budget checks. Costs and
times are rationals (floats in the source), counts are integers. -/
structure Limits where
  maxIterations : Int
  maxCost : ℚ
  maxToolCalls : Int
  maxTimeSeconds : ℚ
deriving DecidableEq, Repr

/-- The counters of `AgentState` consulted by the budget checks. -/
structure RunCounters where
  phase : AgentPhase
  iteration : Int
  totalCost : ℚ
  totalToolCalls : Int
deriving DecidableEq, Repr

/-- Result record of `_check_all_limits`. -/
structure LimitCheck where
  shouldStop : Bool
  reason : String
  warnings : List String
deriving DecidableEq, Repr

/-- `AutonomousAgent._check_all_limits` (src/agent.py lines 1110-1160).
Each limit only triggers when its maximum is `> 0`; the reason string of a
later check overwrites an earlier one; warnings fire at ≥ 90% of a limit
(9/10 here) only when no stop was triggered. Reason/warning strings are
abbreviated tags; their contents are not load-bearing. -/
def checkAllLimits (limits : Limits) (st : RunCounters) (elapsed : ℚ) : LimitCheck :=
  let stopIter := 0 < limits.maxIterations ∧ limits.maxIterations ≤ st.iteration
  let stopCost := 0 < limits.maxCost ∧ limits.maxCost ≤ st.totalCost
  let stopCalls := 0 < limits.maxToolCalls ∧ limits.maxToolCalls ≤ st.totalToolCalls
  let stopTime := 0 < limits.maxTimeSeconds ∧ limits.maxTimeSeconds ≤ elapsed
  let shouldStop : Bool := stopIter ∨ stopCost ∨ stopCalls ∨ stopTime
  let reason : String :=
    if stopTime then "Reached time limit"
    else if stopCalls then "Reached max tool calls"
    else if stopCost then "Reached max cost"
    else if stopIter then "Reached max iterations"
    else ""
  let warnings : List String :=
    if shouldStop then []
    else
      (if 0 < limits.maxIterations ∧ (limits.maxIterations : ℚ) * (9/10) ≤ (st.iteration : ℚ) then
        ["Approaching iteration limit"] else []) ++
      (if 0 < limits.maxCost ∧ limits.maxCost * (9/10) ≤ st.totalCost then
        ["Approaching cost limit"] else []) ++
      (if 0 < limits.maxToolCalls ∧ (limits.maxToolCalls : ℚ) * (9/10) ≤ (st.totalToolCalls : ℚ) then
        ["Approaching tool call limit"] else []) ++
      (if 0 < limits.maxTimeSeconds ∧ limits.maxTimeSeconds * (9/10) ≤ elapsed then
        ["Approaching time limit"] else [])
  { shouldStop := shouldStop, reason := reason, warnings := warnings }

/-- `safe_percent` inside `AutonomousAgent._get_current_limits`
(src/agent.py lines 1167-1170). -/
def safePercent (current maximum : ℚ) : ℚ :=
  if maximum ≤ 0 then 0 else current / maximum * 100

/-- `AutonomousAgent._should_stop_execution` (src/agent.py lines 1075-1088):
stops on a terminal phase, on `iteration >= max_iterations` (no `> 0`
guard), or on `elapsed > max_time_seconds` (no `> 0` guard). -/
def shouldStopExecution (limits : Limits) (st : RunCounters) (elapsed : ℚ) : Bool :=
  if st.phase = .completed ∨ st.phase = .failed ∨ st.phase = .stopped then true
  else if limits.maxIterations ≤ st.iteration then true
  else if limits.maxTimeSeconds < elapsed then true
  else false

/-! ## Character-list string helpers

Python string operations (`in`, `startswith`, `lower()`, `split("/")`)
are modelled over `List Char` so that every predicate is kernel-evaluable. -/

/-- Python `needle == hay[:len(needle)]`: list-level startswith. -/
def startsWithL (needle : List Char) : List Char → Bool :=
  fun hay =>
    match needle, hay with
    | [], _ => true
    | _ :: _, [] => false
    | a :: as, b :: bs => a = b && startsWithL as bs

/-- Python `needle in hay` (substring containment). -/
def containsSub (needle : List Char) : List Char → Bool
  | [] => startsWithL needle []
  | c :: rest => startsWithL needle (c :: rest) || containsSub needle rest

/-- Python `s.lower()` (ASCII is all the source compares). -/
def lowerL (s : List Char) : List Char := s.map Char.toLower

/-! ## Replan triggering (src/agent.py) -/

/-- The pieces of `AgentState` and the plan that `_should_replan` and the
run loop consult. Observations are character lists. -/
structure ReplanView where
  observations : List (List Char)
  iteration : Int
  currentStep : Nat
  consecutiveErrors : Nat
deriving DecidableEq, Repr

/-- Number of the last three observations containing "failed"
(case-insensitive): `sum(1 for obs in observations[-3:] if "failed" in
obs.lower())` from `_should_replan`. -/
def recentFailedCount (obs : List (List Char)) : Nat :=
  ((obs.drop (obs.length - 3)).filter
    (fun o => containsSub "failed".data (lowerL o))).length

/-- `AutonomousAgent._should_replan` (src/agent.py lines 1090-1108).
The observation clause fires only when at least 5 observations exist; the
limit clause consults only `max_iterations` (0.8 modelled as 4/5). -/
def shouldReplan (limits : Limits) (v : ReplanView) : Bool :=
  if 5 ≤ v.observations.length ∧ 2 ≤ recentFailedCount v.observations then true
  else if 10 < v.iteration ∧ v.currentStep < 3 then true
  else if 0 < limits.maxIterations ∧
      (limits.maxIterations : ℚ) * (4/5) ≤ (v.iteration : ℚ) then true
  else false

/-- The engine's replanning trigger: the run loop (src/agent.py lines
441-456) enters REPLANNING when `consecutive_errors >=
max_consecutive_errors` after a failed step, and the reflection check
calls `_should_replan`. -/
def replanTrigger (maxConsecutiveErrors : Nat) (limits : Limits) (v : ReplanView) : Bool :=
  maxConsecutiveErrors ≤ v.consecutiveErrors || shouldReplan limits v

/-- Modelled from the spec: the replan trigger as claim C4 words it — the
error-streak clause, "at least 2 of the last 3 observations contain
failure markers" (no 5-observation precondition), the stagnation clause,
or "any limit is at ≥80% of its configured maximum" (all four limits).
Written for refinement comparison against `replanTrigger`. -/
def claimedReplanTrigger (maxConsecutiveErrors : Nat) (limits : Limits)
    (v : ReplanView) (totalCost : ℚ) (totalToolCalls : Int) (elapsed : ℚ) : Bool :=
  maxConsecutiveErrors ≤ v.consecutiveErrors ||
  2 ≤ recentFailedCount v.observations ||
  (10 < v.iteration && v.currentStep < 3) ||
  (0 < limits.maxIterations && (limits.maxIterations : ℚ) * (4/5) ≤ (v.iteration : ℚ)) ||
  (0 < limits.maxCost && limits.maxCost * (4/5) ≤ totalCost) ||
  (0 < limits.maxToolCalls && (limits.maxToolCalls : ℚ) * (4/5) ≤ (totalToolCalls : ℚ)) ||
  (0 < limits.maxTimeSeconds && limits.maxTimeSeconds * (4/5) ≤ elapsed)

/-! ## Tool arguments and validation (src/base.py) -/

/-- A JSON-ish tool-argument value. String payloads are character lists
so the security scans are kernel-evaluable. -/
inductive ArgValue where
  | str (s : List Char)
  | int (n : Int)
  | bool (b : Bool)
  | array
  | obj
deriving DecidableEq, Repr

/-- `ToolPlugin._check_type` (src/base.py lines 234-251). In Python a
bool is an int, so booleans satisfy "integer" and "number"; unknown type
names skip the check. -/
def checkType (v : ArgValue) (expected : String) : Bool :=
  if expected = "string" then (match v with | .str _ => true | _ => false)
  else if expected = "integer" then (match v with | .int _ => true | .bool _ => true | _ => false)
  else if expected = "number" then (match v with | .int _ => true | .bool _ => true | _ => false)
  else if expected = "boolean" then (match v with | .bool _ => true | _ => false)
  else if expected = "array" then (match v with | .array => true | _ => false)
  else if expected = "object" then (match v with | .obj => true | _ => false)
  else true

/-- Tool metadata (`ToolMetadata` in the core types, the fields the
claims touch): parameter schema as name/declared-type pairs plus the
required-parameter list. -/
structure ToolMetadata where
  name : String
  capabilities : List Capability
  properties : List (String × String)
  required : List String
deriving DecidableEq, Repr

/-- Errors of `ToolPlugin._validate_schema` (src/base.py lines 186-232):
one error when required parameters are missing, one per wrongly typed
known parameter. -/
def schemaErrors (meta : ToolMetadata) (args : List (String × ArgValue)) : List String :=
  (if meta.required.all (fun r => (args.map Prod.fst).contains r) then []
   else ["Missing required parameters"]) ++
  args.filterMap (fun kv =>
    match meta.properties.lookup kv.1 with
    | some ty =>
      if ¬ checkType kv.2 ty then some ("Parameter has wrong type: " ++ kv.1) else none
    | none => none)

/-- Warnings of `_validate_schema`: unknown parameters. -/
def schemaWarnings (meta : ToolMetadata) (args : List (String × ArgValue)) : List String :=
  if args.all (fun kv => (meta.properties.map Prod.fst).contains kv.1) then []
  else ["Unknown parameters"]

/-- The `dangerous_patterns` table of `ToolPlugin._validate_security`
(src/base.py lines 263-272). -/
def dangerousPatterns : List (List Char) :=
  ["..".data, "://".data, "<script>".data, "$\x7b".data,
   "exec(".data, "eval(".data, "system(".data, "subprocess".data]

/-- Warnings of `_validate_security` (src/base.py lines 274-281): one
warning per dangerous pattern found in the lowercase of a string
argument value. -/
def securityWarnings (args : List (String × ArgValue)) : List String :=
  args.flatMap (fun kv =>
    match kv.2 with
    | .str v =>
      (dangerousPatterns.filter (fun p => containsSub p (lowerL v))).map
        (fun _ => "Parameter contains potential dangerous pattern: " ++ kv.1)
    | _ => [])

/-- Errors of `_validate_security` (src/base.py lines 283-291): only for
tools with the writable capability, and only for string values that
contain a path separator ("/" or "\"), a ".." substring is an error. -/
def securityErrors (meta : ToolMetadata) (args : List (String × ArgValue)) : List String :=
  if meta.capabilities.contains .writable then
    args.filterMap (fun kv =>
      match kv.2 with
      | .str v =>
        if (containsSub "/".data v || containsSub "\\".data v)
            && containsSub "..".data v then
          some ("Parameter contains path traversal: " ++ kv.1)
        else none
      | _ => none)
  else []

/-- Result record of `validate_input` (`ToolValidationResult`). -/
structure ValidationResult where
  valid : Bool
  errors : List String
  warnings : List String
deriving DecidableEq, Repr

/-- `ToolPlugin.validate_input` (src/base.py lines 129-184): errors from
the schema and security passes accumulate (business-logic and resource
passes are no-ops in the base class); valid iff no errors. -/
def validateInput (meta : ToolMetadata) (args : List (String × ArgValue)) : ValidationResult :=
  let errs := schemaErrors meta args ++ securityErrors meta args
  { valid := errs.isEmpty
    errors := errs
    warnings := schemaWarnings meta args ++ securityWarnings args }

/-! ## Tool registry and the two execution caches
(src/base.py ToolRegistry, src/agent.py AutonomousAgent) -/

/-- Result record of a tool execution (`ToolResult`, restricted to the
fields the claims touch; `success` models `status == SUCCESS`). -/
structure ToolResult where
  success : Bool
  output : List Char := []
  error : Option String := none
  cost : ℚ := 0
  cached : Bool := false
deriving DecidableEq, Repr

/-- A registered tool plugin: metadata plus its `execute` behaviour. -/
structure Tool where
  meta : ToolMetadata
  run : List (String × ArgValue) → ToolResult

/-- `ToolRegistry.register` (src/base.py lines 433-452): a plain dict
assignment `self._tools[name] = tool`; an existing entry under the same
name is overwritten (only a warning is logged, no error is raised). -/
def registerTool (tools : String → Option Tool) (t : Tool) : String → Option Tool :=
  fun n => if n = t.meta.name then some t else tools n

/-- Timestamp ordering used by both caches' eviction
(`sorted(cache.keys(), key=lambda k: cache[k]["timestamp"])`). -/
def tsLe {α : Type} (ts : α → Nat) : α → α → Prop :=
  fun a b => ts a ≤ ts b

instance {α : Type} (ts : α → Nat) : DecidableRel (tsLe ts) :=
  fun a b => Nat.decLe (ts a) (ts b)

instance {α : Type} (ts : α → Nat) : IsTotal α (tsLe ts) :=
  ⟨fun a b => Nat.le_total (ts a) (ts b)⟩

instance {α : Type} (ts : α → Nat) : IsTrans α (tsLe ts) :=
  ⟨fun _ _ _ h1 h2 => Nat.le_trans h1 h2⟩

/-- The entries deleted by one eviction pass, shared by
`ToolRegistry._add_to_cache` (src/base.py lines 739-748) and
`AutonomousAgent._execute_tool_step` (src/agent.py lines 724-734): the
first `max(1, int(0.2 * size))` entries of the cache sorted by timestamp
(`int` truncation on a float is Nat floor division here). -/
def removedOldest {α : Type} (ts : α → Nat) (l : List α) : List α :=
  (List.insertionSort (tsLe ts) l).take (max 1 (l.length / 5))

/-- The entries surviving one eviction pass (the dict after the oldest
keys are deleted, represented in timestamp order). -/
def evictOldest {α : Type} (ts : α → Nat) (l : List α) : List α :=
  (List.insertionSort (tsLe ts) l).drop (max 1 (l.length / 5))

/-- A cache entry: `{"result": ..., "timestamp": ...}`. -/
structure CacheEntry where
  result : List Char
  timestamp : Nat
deriving DecidableEq, Repr

/-- Registry cache key: the data hashed by
`ToolRegistry._create_cache_key` (src/base.py lines 699-715) — tool
name, arguments and the filtered context (md5 abstracted as the identity
on this triple). -/
abbrev RegCacheKey := String × List (String × ArgValue) × List (String × String)

/-- Context filtering in `_create_cache_key`: volatile keys are dropped. -/
def filteredContext (ctx : List (String × String)) : List (String × String) :=
  ctx.filter (fun kv => kv.1 ≠ "execution_id" ∧ kv.1 ≠ "timestamp")

/-- Cache key construction of `_create_cache_key`. -/
def regCacheKey (name : String) (args : List (String × ArgValue))
    (ctx : List (String × String)) : RegCacheKey :=
  (name, args, filteredContext ctx)

/-- `ToolRegistry._get_from_cache` (src/base.py lines 717-730): a hit iff
the entry exists and `now - timestamp < ttl`; an expired entry is deleted
on read. -/
def regGetFromCache (cache : List (RegCacheKey × CacheEntry)) (ttl : Nat)
    (key : RegCacheKey) (now : Nat) :
    Option CacheEntry × List (RegCacheKey × CacheEntry) :=
  match cache.lookup key with
  | none => (none, cache)
  | some e =>
    if now - e.timestamp < ttl then (some e, cache)
    else (none, cache.filter (fun kv => kv.1 ≠ key))

/-- `ToolRegistry._add_to_cache` (src/base.py lines 732-754): evict the
oldest 20% when the cache is already at `max_size`, then store the entry
under its key. No capability is consulted anywhere on this path. -/
def regAddToCache (cache : List (RegCacheKey × CacheEntry)) (maxSize : Nat)
    (key : RegCacheKey) (result : List Char) (now : Nat) :
    List (RegCacheKey × CacheEntry) :=
  let c := if maxSize ≤ cache.length then evictOldest (fun kv => kv.2.timestamp) cache
           else cache
  (c.filter (fun kv => kv.1 ≠ key)) ++ [(key, { result := result, timestamp := now })]

/-- The registry state threaded through `ToolRegistry.execute`. -/
structure RegistryState where
  tools : String → Option Tool
  cache : List (RegCacheKey × CacheEntry)
  cacheMaxSize : Nat := 1000
  cacheTtl : Nat := 300
  cacheEnabled : Bool := true

/-- Outcome of `ToolRegistry.execute`: the tool result, the updated
state, and whether the tool body was actually dispatched. -/
structure RegExecOut where
  result : ToolResult
  state : RegistryState
  dispatched : Bool

/-- The validate-and-dispatch tail of `ToolRegistry.execute`
(src/base.py lines 615-678): failed validation returns a failure without
dispatching; a successful dispatched result is inserted into the cache
(again with no capability check). -/
def registryDispatch (rs : RegistryState) (tool : Tool)
    (args : List (String × ArgValue)) (key : RegCacheKey) (now : Nat)
    (doCache : Bool) : RegExecOut :=
  if (validateInput tool.meta args).valid then
    let r := tool.run args
    let newCache :=
      if doCache && r.success then regAddToCache rs.cache rs.cacheMaxSize key r.output now
      else rs.cache
    { result := r, state := { rs with cache := newCache }, dispatched := true }
  else
    { result := { success := false
                  error := some "Validation failed" }
      state := rs, dispatched := false }

/-- `ToolRegistry.execute` (src/base.py lines 549-697) with
`validate=True, use_cache=True` (the defaults, and what the agent uses):
unknown tool → failure; cache hit within TTL → cached success without
dispatch; otherwise validate and dispatch. -/
def registryExecute (rs : RegistryState) (name : String)
    (args : List (String × ArgValue)) (ctx : List (String × String))
    (now : Nat) : RegExecOut :=
  match rs.tools name with
  | none =>
    { result := { success := false, error := some ("Tool not found: " ++ name) }
      state := rs, dispatched := false }
  | some tool =>
    if rs.cacheEnabled then
      let key := regCacheKey name args ctx
      match regGetFromCache rs.cache rs.cacheTtl key now with
      | (some e, c2) =>
        { result := { success := true, output := e.result, cached := true }
          state := { rs with cache := c2 }, dispatched := false }
      | (none, c2) =>
        registryDispatch { rs with cache := c2 } tool args key now true
    else
      registryDispatch rs tool args (regCacheKey name args ctx) now false

/-! ## Agent-level tool step execution (src/agent.py) -/

/-- Agent cache key: the data behind
`f"{step.tool_name}:{md5(json.dumps(step.arguments, sort_keys=True))}"`
(src/agent.py lines 685-687), with the hash abstracted as the identity
on the pair. -/
abbrev AgentCacheKey := String × List (String × ArgValue)

/-- `ExecutionResult` (core types, fields the claims touch). -/
structure ExecutionResult where
  success : Bool
  output : List Char := []
  error : Option String := none
  toolUsed : Option String := none
  cost : ℚ := 0
  cached : Bool := false
  needsReplan : Bool := false
deriving DecidableEq, Repr

/-- Outcome of `_execute_tool_step`: result, updated agent tool cache,
updated registry state, and whether the tool body was dispatched. -/
structure StepExecOut where
  result : ExecutionResult
  toolCache : List (AgentCacheKey × CacheEntry)
  registry : RegistryState
  dispatched : Bool

/-- The insertion part of the cache block of
`AutonomousAgent._execute_tool_step` (src/agent.py lines 717-722): the
successful output is stored under its key. No capability is consulted. -/
def agentInserted (tc : List (AgentCacheKey × CacheEntry))
    (key : AgentCacheKey) (output : List Char) (now : Nat) :
    List (AgentCacheKey × CacheEntry) :=
  (tc.filter (fun kv => kv.1 ≠ key)) ++ [(key, { result := output, timestamp := now })]

/-- The size test after the insertion (`len(self.tool_cache) >
max_cache_size`) and the eviction of the oldest 20%. -/
def agentAddToCache (tc : List (AgentCacheKey × CacheEntry)) (maxCacheSize : Nat)
    (key : AgentCacheKey) (output : List Char) (now : Nat) :
    List (AgentCacheKey × CacheEntry) :=
  let tc1 := agentInserted tc key output now
  if maxCacheSize < tc1.length then evictOldest (fun kv => kv.2.timestamp) tc1
  else tc1

/-- The dispatch tail of `_execute_tool_step` (src/agent.py lines
713-755): call `self.tools.execute`, cache a successful output, shape
the `ExecutionResult`. -/
def agentDispatch (tc : List (AgentCacheKey × CacheEntry)) (rs : RegistryState)
    (name : String) (args : List (String × ArgValue)) (key : AgentCacheKey)
    (maxCacheSize : Nat) (now : Nat) : StepExecOut :=
  let out := registryExecute rs name args [] now
  if out.result.success then
    { result := { success := true, output := out.result.output
                  toolUsed := some name, cost := out.result.cost, cached := false }
      toolCache := agentAddToCache tc maxCacheSize key out.result.output now
      registry := out.state
      dispatched := out.dispatched }
  else
    { result := { success := false, output := out.result.output
                  error := out.result.error, toolUsed := some name
                  cost := out.result.cost }
      toolCache := tc
      registry := out.state
      dispatched := out.dispatched }

/-- `AutonomousAgent._execute_tool_step` (src/agent.py lines 677-755): a
missing tool name fails; a cache entry younger than the TTL is returned
with `cached=True, cost=0` and no dispatch — for every tool, whatever its
capabilities; otherwise dispatch through the registry. -/
def executeToolStep (tc : List (AgentCacheKey × CacheEntry)) (rs : RegistryState)
    (toolName : Option String) (args : List (String × ArgValue))
    (toolCacheTtl : Nat) (maxCacheSize : Nat) (now : Nat) : StepExecOut :=
  match toolName with
  | none =>
    { result := { success := false, error := some "Tool step missing tool name" }
      toolCache := tc, registry := rs, dispatched := false }
  | some name =>
    let key : AgentCacheKey := (name, args)
    match tc.lookup key with
    | some e =>
      if now - e.timestamp < toolCacheTtl then
        { result := { success := true, output := e.result, toolUsed := some name
                      cost := 0, cached := true }
          toolCache := tc, registry := rs, dispatched := false }
      else agentDispatch tc rs name args key maxCacheSize now
    | none => agentDispatch tc rs name args key maxCacheSize now

/-! ## Planner (src/planner.py) -/

/-- A plan step as constructed by the Planner (`PlanStep` in the core
types, restricted to the fields the claims touch). `adjustmentReason` and
`originalStep` model the metadata entries written by the adjust branch of
`replan`. -/
structure PlanStep where
  id : String
  description : String
  actionType : String
  toolName : Option String := none
  expectedOutcome : String := ""
  adjustmentReason : Option String := none
  originalStep : Option Nat := none
deriving DecidableEq, Repr

/-- A plan (`Plan` in the core types, fields the claims touch).
`fallbackReason` models the `fallback_reason` metadata entry. -/
structure Plan where
  goal : String
  steps : List PlanStep
  currentStep : Nat := 0
  status : TaskStatus
  strategy : String
  fallbackReason : Option String := none
deriving DecidableEq, Repr

/-- One step record of the parsed LLM JSON (`step_data` dict in
`Planner.create_plan` / `Planner.replan`); `none` models a missing key. -/
structure StepData where
  id : Option String := none
  description : Option String := none
  actionType : Option String := none
  toolName : Option String := none
  expectedOutcome : Option String := none
deriving DecidableEq, Repr

/-- The parsed LLM planning JSON (`plan_data` dict in
`Planner.create_plan`). -/
structure PlanData where
  goal : Option String := none
  strategy : Option String := none
  steps : List StepData := []
  requiresClarification : Bool := false
deriving DecidableEq, Repr

/-- `Planner._create_fallback_plan` (src/planner.py lines 770-808): three
generic steps — analyze, execute, validate — with strategy "fallback". -/
def fallbackPlan (goal : String) (errMsg : String) : Plan :=
  { goal := goal
    steps := [
      { id := "fallback_1"
        description := "Analyze and understand the task: " ++ goal
        actionType := "reasoning"
        expectedOutcome := "Clear understanding of requirements" },
      { id := "fallback_2"
        description := "Execute the main task with available tools"
        actionType := "tool_call"
        expectedOutcome := "Task completion attempt" },
      { id := "fallback_3"
        description := "Review and validate results"
        actionType := "reasoning"
        expectedOutcome := "Verified completion or identified issues" } ]
    status := .planning
    strategy := "fallback"
    fallbackReason := some errMsg }

/-- Step construction in the success path of `Planner.create_plan`
(src/planner.py lines 322-338): default id `step_{N+1}`, default
action type "reasoning"; a missing description raises (KeyError), which
the caller handles separately. -/
def buildPlanStep (idx : Nat) (sd : StepData) : PlanStep :=
  { id := sd.id.getD ("step_" ++ toString (idx + 1))
    description := sd.description.getD ""
    actionType := sd.actionType.getD "reasoning"
    toolName := sd.toolName
    expectedOutcome := sd.expectedOutcome.getD "" }

/-- `Planner.create_plan` (src/planner.py lines 231-367), with the LLM
call and JSON extraction abstracted into the `parsed` argument: `.error`
is an irrecoverable parse failure. Any exception inside the try block —
including the KeyError on a step without a description — also lands in
the fallback branch. The clarification branch returns a single
clarification step. -/
def createPlan (goal : String) (strategyValue : String)
    (parsed : Except String PlanData) : Plan :=
  match parsed with
  | .error e => fallbackPlan goal e
  | .ok d =>
    if d.requiresClarification then
      { goal := goal
        steps := [{ id := "clarification"
                    description := "Get clarification from user"
                    actionType := "clarification"
                    expectedOutcome := "User provides needed information" }]
        status := .pending
        strategy := strategyValue }
    else if d.steps.any (fun sd => sd.description = none) then
      fallbackPlan goal "KeyError: description"
    else
      { goal := d.goal.getD goal
        steps := d.steps.enum.map (fun p => buildPlanStep p.1 p.2)
        status := .planning
        strategy := d.strategy.getD strategyValue }

/-- Step construction in the adjust branch of `Planner.replan`
(src/planner.py lines 443-456): default id `adjusted_{N+1}`, default
description "Adjusted step", metadata records the adjustment reason and
the original current step. -/
def adjustedSteps (reason : String) (origStep : Option Nat)
    (sds : List StepData) : List PlanStep :=
  sds.enum.map (fun p =>
    { id := p.2.id.getD ("adjusted_" ++ toString (p.1 + 1))
      description := p.2.description.getD "Adjusted step"
      actionType := p.2.actionType.getD "reasoning"
      toolName := p.2.toolName
      expectedOutcome := p.2.expectedOutcome.getD ""
      adjustmentReason := some reason
      originalStep := origStep })

/-- The adjust branch of `Planner.replan` (src/planner.py lines 437-474):
when the LLM supplies an updated plan, the steps before `current_step`
are kept (`plan.steps[:plan.current_step]`) and the remainder is replaced
by the adjusted steps; with no updated plan data the plan is unchanged. -/
def replanAdjust (plan : Plan) (updatedSteps : Option (List StepData))
    (strategyChange : Option String) (reason : String) : Plan :=
  match updatedSteps with
  | none => plan
  | some sds =>
    let orig : Option Nat :=
      if plan.currentStep < plan.steps.length then some plan.currentStep else none
    { plan with
        steps := plan.steps.take plan.currentStep ++ adjustedSteps reason orig sds
        strategy := strategyChange.getD plan.strategy }

/-! ## Workspace path sandbox (src/file_ops.py) -/

/-- Python `str.split("/")` over character lists. -/
def splitSlash : List Char → List (List Char)
  | [] => [[]]
  | c :: rest =>
    let r := splitSlash rest
    if c = '/' then [] :: r
    else
      match r with
      | [] => [[c]]
      | g :: gs => (c :: g) :: gs

/-- POSIX resolution of already-split segments against an absolute base:
empty and "." segments vanish, ".." removes the last segment (staying at
the root when there is none), other segments are appended. -/
def resolveSegs (acc : List (List Char)) : List (List Char) → List (List Char)
  | [] => acc
  | s :: rest =>
    if s = "..".data then resolveSegs acc.dropLast rest
    else if s = ".".data ∨ s = [] then resolveSegs acc rest
    else resolveSegs (acc ++ [s]) rest

/-- The effect of `(self._workspace / file_path).resolve()` (symlink-free)
on a workspace given as absolute segments: an absolute `file_path`
replaces the base (pathlib join semantics), a relative one is resolved
against it. -/
def resolvePath (ws : List (List Char)) (arg : List Char) : List (List Char) :=
  match arg with
  | '/' :: _ => resolveSegs [] (splitSlash arg)
  | _ => resolveSegs ws (splitSlash arg)

/-- Python `str(path)` for an absolute path given as segments; the root
prints as "/". -/
def pathStr (segs : List (List Char)) : List Char :=
  if segs = [] then "/".data
  else segs.foldl (fun a s => a ++ "/".data ++ s) []

/-- The sandbox gate shared verbatim by `ReadFileTool`, `WriteFileTool`,
`ListDirectoryTool` and `DeleteFileTool` in src/file_ops.py:
`str(full_path).startswith(str(self._workspace))` — a string-prefix
test, not a path-component test. -/
def sandboxAllows (ws : List (List Char)) (arg : List Char) : Bool :=
  startsWithL (pathStr ws) (pathStr (resolvePath ws arg))

/-- Segment-wise list-prefix test. -/
def segsPrefixOf : List (List Char) → List (List Char) → Bool
  | [], _ => true
  | _ :: _, [] => false
  | a :: as, b :: bs => a = b && segsPrefixOf as bs

/-- Modelled from the spec: "the resolved path lies outside
workspace_path" means the workspace is not an ancestor — not a
segment-prefix — of the resolved path. Written for comparison against
the source's `sandboxAllows`. -/
def insideWorkspace (ws : List (List Char)) (arg : List Char) : Bool :=
  segsPrefixOf ws (resolvePath ws arg)

/-- Outcomes of the file tools. -/
inductive FileOutcome where
  | denied
  | notFound
  | tooLarge
  | ok (content : List Char)
deriving DecidableEq, Repr

/-- `ReadFileTool.execute` (src/file_ops.py lines 51-108) over an
abstract filesystem mapping resolved absolute paths to contents; the
boolean records whether a filesystem read was performed. The size check
is modelled on content length. -/
def readFileExec (ws : List (List Char)) (fs : List (List (List Char) × List Char))
    (fp : List Char) (maxBytes : Nat) : FileOutcome × Bool :=
  let full := resolvePath ws fp
  if ¬ sandboxAllows ws fp then (.denied, false)
  else
    match fs.lookup full with
    | none => (.notFound, false)
    | some content =>
      if maxBytes < content.length then (.tooLarge, false)
      else (.ok content, true)

/-- `WriteFileTool.execute` (src/file_ops.py lines 153-207): outcome,
the updated filesystem, and whether a mutation was performed. -/
def writeFileExec (ws : List (List Char)) (fs : List (List (List Char) × List Char))
    (fp content : List Char) (maxBytes : Nat) :
    FileOutcome × List (List (List Char) × List Char) × Bool :=
  let full := resolvePath ws fp
  if ¬ sandboxAllows ws fp then (.denied, fs, false)
  else if maxBytes < content.length then (.tooLarge, fs, false)
  else (.ok content, (fs.filter (fun kv => kv.1 ≠ full)) ++ [(full, content)], true)

/-! ## Concrete fixtures used by the evaluation theorems -/

/-- A concrete writable tool for evaluating the caching path. -/
def writeFileTool : Tool :=
  { meta := { name := "write_file"
              capabilities := [.writable]
              properties := [("file_path", "string"), ("content", "string")]
              required := ["file_path", "content"] }
    run := fun _ => { success := true, output := "Wrote hello.txt".data } }

/-- Arguments of a concrete write_file call. -/
def writeArgs : List (String × ArgValue) :=
  [("file_path", .str "hello.txt".data), ("content", .str "hi".data)]

/-- A registry with only the writable tool and an empty cache. -/
def regState0 : RegistryState :=
  { tools := registerTool (fun _ => none) writeFileTool, cache := [] }

/-- First execution of the write_file step, at time 0, empty caches. -/
def writeRun1 : StepExecOut :=
  executeToolStep [] regState0 (some "write_file") writeArgs 300 100 0

/-- Repeat execution of the identical step one second later. -/
def writeRun2 : StepExecOut :=
  executeToolStep writeRun1.toolCache writeRun1.registry
    (some "write_file") writeArgs 300 100 1

/-- A 100-entry agent tool cache with timestamps 0..99 and pairwise
distinct keys. -/
def c100 : List (AgentCacheKey × CacheEntry) :=
  (List.range 100).map
    (fun i => (("k", [("i", ArgValue.int (Int.ofNat i))]), { result := [], timestamp := i }))

/-- The key of the 101st insertion into `c100`. -/
def k100 : AgentCacheKey := ("k", [("i", ArgValue.int 100)])

/-- A one-entry agent cache and two keys/entries for the C5 witness. -/
def keyA : AgentCacheKey := ("a", [])

def keyB : AgentCacheKey := ("b", [])

def entry5 : CacheEntry := { result := [], timestamp := 5 }

def entry7 : CacheEntry := { result := [], timestamp := 7 }

end DweepBot

namespace DweepBot

/-! ## Theorems -/

/-- C10: `pause()` leaves the terminal phases completed, failed and
stopped unchanged, and maps every other phase to stopped. -/
theorem pause_terminal_absorbing :
    pausePhase .completed = .completed ∧
    pausePhase .failed = .failed ∧
    pausePhase .stopped = .stopped ∧
    pausePhase .initializing = .stopped ∧
    pausePhase .planning = .stopped ∧
    pausePhase .executing = .stopped ∧
    pausePhase .observing = .stopped ∧
    pausePhase .replanning = .stopped := by
  decide

/-- C2: with every configured maximum set to 0 ("unlimited" by the
repository's convention), `_check_all_limits` correctly reports
`should_stop=false` and `safe_percent` reports 0 with no division — but
`_should_stop_execution` returns true for a fresh run (iteration 0 ≥
max_iterations 0), halting the execution loop immediately because of an
unlimited limit. -/
theorem unlimited_limits_stop_bug :
    (checkAllLimits ⟨0, 0, 0, 0⟩ ⟨.executing, 0, 0, 0⟩ 5).shouldStop = false ∧
    safePercent 7 0 = 0 ∧
    shouldStopExecution ⟨0, 0, 0, 0⟩ ⟨.executing, 0, 0, 0⟩ 5 = true := by
  refine ⟨?_, ?_, ?_⟩ <;> simp [checkAllLimits, safePercent, shouldStopExecution]

/-- C4, counterexample: a state where 2 of the last 3 observations
contain the failure marker (but fewer than 5 observations exist) and
total cost is at 90% ≥ 80% of `max_cost`, yet the engine does not trigger
replanning — `_should_replan` requires at least 5 observations for the
failure clause and consults no limit other than `max_iterations`. -/
theorem replan_trigger_counterexample :
    claimedReplanTrigger 3 ⟨100, 10, 50, 3600⟩
      ⟨["tool a failed".data, "tool b failed".data], 1, 0, 0⟩ 9 0 5 = true ∧
    replanTrigger 3 ⟨100, 10, 50, 3600⟩
      ⟨["tool a failed".data, "tool b failed".data], 1, 0, 0⟩ = false := by
  constructor
  · decide
  · simp only [replanTrigger, shouldReplan]
    norm_num

/-- C4, amended: the engine triggers replanning exactly when
`consecutive_errors ≥ max_consecutive_errors`, or when at least 5
observations exist and at least 2 of the last 3 contain "failed"
(case-insensitive), or when `iteration > 10` and `current_step < 3`, or
when `max_iterations > 0` and the iteration count is at ≥ 80% of
`max_iterations` — the 80% clause exists only for the iteration limit. -/
theorem replan_trigger_characterization (m : Nat) (limits : Limits) (v : ReplanView) :
    replanTrigger m limits v = true ↔
      (m ≤ v.consecutiveErrors ∨
       (5 ≤ v.observations.length ∧ 2 ≤ recentFailedCount v.observations) ∨
       (10 < v.iteration ∧ v.currentStep < 3) ∨
       (0 < limits.maxIterations ∧
         (limits.maxIterations : ℚ) * (4/5) ≤ (v.iteration : ℚ))) := by
  simp only [replanTrigger, shouldReplan, Bool.or_eq_true, decide_eq_true_eq]
  split_ifs with h1 h2 h3 <;> simp_all

/-- C7: on an irrecoverable parse failure (or any exception inside plan
construction), `create_plan` returns the fallback plan: exactly 3 steps —
analyze, execute, validate — with strategy "fallback". -/
theorem create_plan_fallback_shape (goal e s : String) :
    (createPlan goal s (.error e)).steps.length = 3 ∧
    (createPlan goal s (.error e)).strategy = "fallback" ∧
    (createPlan goal s (.error e)).steps.map PlanStep.id
      = ["fallback_1", "fallback_2", "fallback_3"] ∧
    createPlan goal s (.error e) = fallbackPlan goal e := by
  simp [createPlan, fallbackPlan]

/-- C8: in the adjust branch of `replan` with an LLM-provided step list,
every step at an index strictly below `current_step` is preserved
unchanged, and the steps from `current_step` onward are exactly the
adjusted steps built from the LLM list. -/
theorem replan_adjust_frame (plan : Plan) (sds : List StepData)
    (sc : Option String) (r : String)
    (hcs : plan.currentStep ≤ plan.steps.length) :
    (∀ i, i < plan.currentStep →
      (replanAdjust plan (some sds) sc r).steps[i]? = plan.steps[i]?) ∧
    (replanAdjust plan (some sds) sc r).steps.drop plan.currentStep
      = adjustedSteps r
          (if plan.currentStep < plan.steps.length then some plan.currentStep else none)
          sds := by
  constructor
  · intro i hi
    have hlen : i < (plan.steps.take plan.currentStep).length := by
      simpa [List.length_take, Nat.lt_min] using And.intro hi (lt_of_lt_of_le hi hcs)
    simp only [replanAdjust]
    rw [List.getElem?_append_left hlen, List.getElem?_take_of_lt hi]
  · simp only [replanAdjust]
    exact List.drop_left' (by simp [List.length_take, Nat.min_eq_left hcs])

/-- C1: evaluating `_execute_tool_step` at a repeated write_file call —
a tool whose capabilities are exactly `[writable]` — shows the first
execution dispatches and inserts the result into the execution cache,
and the identical repeat within the TTL is served from the cache
(`cached=true`) without dispatching the tool again. The cache path never
consults the tool's capabilities. -/
theorem writable_tool_cache_bug :
    writeFileTool.meta.capabilities = [.writable] ∧
    writeRun1.dispatched = true ∧
    writeRun1.toolCache.length = 1 ∧
    writeRun2.dispatched = false ∧
    writeRun2.result.cached = true ∧
    writeRun2.result.output = "Wrote hello.txt".data := by
  refine ⟨rfl, ?_, ?_, ?_, ?_, ?_⟩ <;> rfl

/-- Helper: the number of surviving entries after one eviction pass. -/
theorem evictOldest_length {α : Type} (ts : α → Nat) (l : List α) :
    (evictOldest ts l).length = l.length - max 1 (l.length / 5) := by
  simp [evictOldest, List.length_insertionSort]

/-- Helper: when the inserted cache exceeds the maximum size, the
agent-side add runs the eviction. -/
theorem agentAddToCache_over (tc : List (AgentCacheKey × CacheEntry))
    (maxSize : Nat) (key : AgentCacheKey) (output : List Char) (now : Nat)
    (hover : maxSize < (agentInserted tc key output now).length) :
    agentAddToCache tc maxSize key output now
      = evictOldest (fun kv => kv.2.timestamp) (agentInserted tc key output now) := by
  rw [agentAddToCache]
  exact if_pos hover

/-- C5, counterexample: inserting a 101st entry into a 100-entry cache
with `max_cache_size = 100` evicts `max(1, int(0.2*101)) = 20` entries,
strictly fewer than the `⌈0.2·101⌉ = 21` the claim requires. -/
theorem cache_eviction_counterexample :
    (agentAddToCache c100 100 k100 [] 100).length = 81 ∧
    ((101 - 81 : ℤ) < ⌈(101 : ℚ) * (1/5)⌉) := by
  constructor
  · have hfilter : c100.filter (fun kv => kv.1 ≠ k100) = c100 := by
      decide
    have hc : c100.length = 100 := by
      simp [c100]
    have hlen : (agentInserted c100 k100 [] 100).length = 101 := by
      rw [agentInserted, hfilter]
      simp [hc]
    rw [agentAddToCache_over c100 100 k100 [] 100 (by rw [hlen]; norm_num),
      evictOldest_length, hlen]
    norm_num
  · rw [Int.lt_ceil]
    norm_num

/-- C5, amended: when the insertion makes the cache size exceed
`max_cache_size`, the eviction deletes exactly `max(1, ⌊0.2·size⌋)`
entries (Python `int` truncation, not ceiling), and every deleted entry
is at least as old as every surviving one. -/
theorem cache_eviction_amended (tc : List (AgentCacheKey × CacheEntry))
    (maxSize : Nat) (key : AgentCacheKey) (output : List Char) (now : Nat)
    (hover : maxSize < (agentInserted tc key output now).length) :
    (agentAddToCache tc maxSize key output now).length
      = (agentInserted tc key output now).length
        - max 1 ((agentInserted tc key output now).length / 5) ∧
    (∀ x ∈ removedOldest (fun kv => kv.2.timestamp) (agentInserted tc key output now),
     ∀ y ∈ agentAddToCache tc maxSize key output now,
       x.2.timestamp ≤ y.2.timestamp) := by
  have hbranch := agentAddToCache_over tc maxSize key output now hover
  constructor
  · rw [hbranch, evictOldest_length]
  · intro x hx y hy
    rw [hbranch] at hy
    set l := agentInserted tc key output now
    set n := max 1 (l.length / 5)
    have hs : List.Pairwise (tsLe (fun kv => kv.2.timestamp))
        (List.insertionSort (tsLe (fun kv => kv.2.timestamp)) l) :=
      List.sorted_insertionSort _ l
    have hsplit := (List.take_append_drop n
      (List.insertionSort (tsLe (fun kv => kv.2.timestamp)) l)).symm
    rw [hsplit] at hs
    exact (List.pairwise_append.mp hs).2.2 x hx y hy

/-- C5 witness for the amended theorem: a one-entry cache with
`max_cache_size = 1`; the insertion yields 2 entries, the eviction
deletes the single oldest one (timestamp 5 ≤ timestamp 7). -/
theorem cache_eviction_amended_witness :
    (agentAddToCache [(keyA, entry5)] 1 keyB [] 7).length = 1 ∧
    (keyA, entry5).2.timestamp ≤ (keyB, entry7).2.timestamp := by
  have h := cache_eviction_amended [(keyA, entry5)] 1 keyB [] 7 (by decide)
  constructor
  · have h1 := h.1
    simpa using h1
  · exact h.2 (keyA, entry5) (by decide) (keyB, entry7) (by decide)

/-- A concrete writable tool metadata with a path parameter, for the C6
evaluation. -/
def pathToolMeta : ToolMetadata :=
  { name := "move_file"
    capabilities := [.writable]
    properties := [("path", "string")]
    required := ["path"] }

/-- C6, counterexample: for a writable tool, the argument value ".." —
a bare `..` path segment — passes validation (`valid=true`): the
security error fires only when the value also contains a path separator,
and the `..` dangerous-pattern scan merely warns. -/
theorem dotdot_validation_counterexample :
    (validateInput pathToolMeta [("path", .str "..".data)]).valid = true ∧
    containsSub "..".data "..".data = true := by
  constructor <;> decide

/-- C6, amended: for a writable tool, a string argument that contains a
path separator ("/" or "\") together with a `..` substring is rejected:
validation returns valid=false and the registry (with no cache entry for
the call) returns a failure without dispatching the tool. -/
theorem dotdot_validation_amended (t : Tool) (rs : RegistryState)
    (args : List (String × ArgValue)) (k : String) (v : List Char)
    (ctx : List (String × String)) (now : Nat)
    (htool : rs.tools t.meta.name = some t)
    (hcache : rs.cache = [])
    (hw : t.meta.capabilities.contains .writable = true)
    (hmem : (k, ArgValue.str v) ∈ args)
    (hsep : (containsSub "/".data v || containsSub "\\".data v) = true)
    (hdd : containsSub "..".data v = true) :
    (validateInput t.meta args).valid = false ∧
    (registryExecute rs t.meta.name args ctx now).dispatched = false ∧
    (registryExecute rs t.meta.name args ctx now).result.success = false := by
  have herr : securityErrors t.meta args ≠ [] := by
    rw [securityErrors, if_pos hw]
    intro hnil
    rw [List.filterMap_eq_nil_iff] at hnil
    have := hnil (k, ArgValue.str v) hmem
    simp only [hsep, hdd] at this
    simp at this
  have hvalid : (validateInput t.meta args).valid = false := by
    rw [validateInput]
    simp only [List.isEmpty_eq_true, List.append_eq_nil]
    simp [herr]
  refine ⟨hvalid, ?_, ?_⟩ <;>
  · rw [registryExecute, htool]
    cases hce : rs.cacheEnabled <;>
      simp [hce, hcache, regGetFromCache, registryDispatch, hvalid]

/-- C6 witness for the amended theorem: the value "a/../b" on the
concrete writable tool is rejected without dispatch. -/
theorem dotdot_validation_amended_witness :
    (validateInput pathToolMeta [("path", .str "a/../b".data)]).valid = false ∧
    (registryExecute
        { tools := registerTool (fun _ => none)
            { meta := pathToolMeta, run := fun _ => { success := true } }
          cache := [] }
        "move_file" [("path", .str "a/../b".data)] [] 0).dispatched = false ∧
    (registryExecute
        { tools := registerTool (fun _ => none)
            { meta := pathToolMeta, run := fun _ => { success := true } }
          cache := [] }
        "move_file" [("path", .str "a/../b".data)] [] 0).result.success = false := by
  exact dotdot_validation_amended
    { meta := pathToolMeta, run := fun _ => { success := true } }
    { tools := registerTool (fun _ => none)
        { meta := pathToolMeta, run := fun _ => { success := true } }
      cache := [] }
    [("path", .str "a/../b".data)] "path" "a/../b".data [] 0
    (by rfl) (by rfl) (by decide) (by simp) (by decide) (by decide)

/-- C9: re-registering a tool under an already-registered metadata name
does not fail — `register` is a plain dict overwrite — and a subsequent
`execute` under that name dispatches the most recently registered tool
(provided the arguments validate and the cache is empty). -/
theorem register_overwrite_dispatch (tools : String → Option Tool)
    (t1 t2 : Tool) (args : List (String × ArgValue))
    (ctx : List (String × String)) (now : Nat)
    (_hname : t1.meta.name = t2.meta.name)
    (hvalid : (validateInput t2.meta args).valid = true) :
    registerTool (registerTool tools t1) t2 t2.meta.name = some t2 ∧
    (registryExecute { tools := registerTool (registerTool tools t1) t2, cache := [] }
        t2.meta.name args ctx now).dispatched = true ∧
    (registryExecute { tools := registerTool (registerTool tools t1) t2, cache := [] }
        t2.meta.name args ctx now).result = t2.run args := by
  have hlook : registerTool (registerTool tools t1) t2 t2.meta.name = some t2 := by
    rw [registerTool]
    simp
  have hmatch : ({ tools := registerTool (registerTool tools t1) t2, cache := [] }
      : RegistryState).tools t2.meta.name = some t2 := hlook
  refine ⟨hlook, ?_, ?_⟩ <;>
  · rw [registryExecute, hmatch]
    simp [regGetFromCache, registryDispatch, hvalid]

/-- C9 witness: two concrete tools registered under the same name
"echo"; execution returns the second tool's output. -/
theorem register_overwrite_dispatch_witness :
    registerTool (registerTool (fun _ => none)
        { meta := { name := "echo", capabilities := [.fast], properties := [], required := [] }
          run := fun _ => { success := true, output := "one".data } })
        { meta := { name := "echo", capabilities := [.fast], properties := [], required := [] }
          run := fun _ => { success := true, output := "two".data } } "echo"
      = some { meta := { name := "echo", capabilities := [.fast], properties := [], required := [] }
               run := fun _ => { success := true, output := "two".data } } ∧
    (registryExecute
        { tools := registerTool (registerTool (fun _ => none)
            { meta := { name := "echo", capabilities := [.fast], properties := [], required := [] }
              run := fun _ => { success := true, output := "one".data } })
            { meta := { name := "echo", capabilities := [.fast], properties := [], required := [] }
              run := fun _ => { success := true, output := "two".data } }
          cache := [] } "echo" [] [] 0).result.output = "two".data := by
  have h := register_overwrite_dispatch (fun _ => none)
    { meta := { name := "echo", capabilities := [.fast], properties := [], required := [] }
      run := fun _ => { success := true, output := "one".data } }
    { meta := { name := "echo", capabilities := [.fast], properties := [], required := [] }
      run := fun _ => { success := true, output := "two".data } }
    [] [] 0 (by rfl) (by decide)
  exact ⟨h.1, by rw [h.2.2]⟩

/-- C3, counterexample: with workspace `/ws`, the argument `../wsx/f`
resolves to `/wsx/f` — outside the workspace — yet the `startswith`
sandbox check accepts it because "/wsx/f" begins with the string "/ws",
and the write proceeds and mutates the filesystem. -/
theorem sandbox_prefix_counterexample :
    sandboxAllows ["ws".data] "../wsx/f".data = true ∧
    insideWorkspace ["ws".data] "../wsx/f".data = false ∧
    (writeFileExec ["ws".data] [] "../wsx/f".data "data".data 1000).2.2 = true := by
  refine ⟨?_, ?_, ?_⟩ <;> decide

/-- C3, amended: the file tools resolve the argument against
`workspace_path` and reject it exactly when the resolved path's string
form does not start with the workspace's string form; a rejected
argument yields a denied failure with no filesystem read or mutation.
(The prefix test admits sibling paths sharing the workspace string as a
prefix, as the counterexample shows; `list_directory` and `delete_file`
use the identical gate.) -/
theorem sandbox_amended (ws : List (List Char))
    (fs : List (List (List Char) × List Char)) (fp content : List Char)
    (maxBytes : Nat) (h : sandboxAllows ws fp = false) :
    (readFileExec ws fs fp maxBytes).1 = .denied ∧
    (readFileExec ws fs fp maxBytes).2 = false ∧
    (writeFileExec ws fs fp content maxBytes).1 = .denied ∧
    (writeFileExec ws fs fp content maxBytes).2.1 = fs ∧
    (writeFileExec ws fs fp content maxBytes).2.2 = false := by
  refine ⟨?_, ?_, ?_, ?_, ?_⟩ <;> simp [readFileExec, writeFileExec, h]

/-- C3 witness for the amended theorem: `../../etc/passwd` under
workspace `/ws` resolves to `/etc/passwd`, fails the prefix test, and
both tools deny it without touching the filesystem. -/
theorem sandbox_amended_witness :
    (readFileExec ["ws".data] [] "../../etc/passwd".data 1000).1 = .denied ∧
    (readFileExec ["ws".data] [] "../../etc/passwd".data 1000).2 = false ∧
    (writeFileExec ["ws".data] [] "../../etc/passwd".data "x".data 1000).1 = .denied ∧
    (writeFileExec ["ws".data] [] "../../etc/passwd".data "x".data 1000).2.1 = [] ∧
    (writeFileExec ["ws".data] [] "../../etc/passwd".data "x".data 1000).2.2 = false :=
  sandbox_amended ["ws".data] [] "../../etc/passwd".data "x".data 1000 (by decide)

/-- C8 witness: a concrete two-step plan with `current_step = 1` and a
one-step LLM update. -/
theorem replan_adjust_frame_witness :
    (∀ i, i < (1 : Nat) →
      (replanAdjust
        { goal := "g", steps := [{ id := "a", description := "da", actionType := "reasoning" },
                                 { id := "b", description := "db", actionType := "reasoning" }],
          currentStep := 1, status := .planning, strategy := "step_by_step" }
        (some [{ description := some "new step" }]) none "fix").steps[i]?
        = ({ goal := "g", steps := [{ id := "a", description := "da", actionType := "reasoning" },
                                    { id := "b", description := "db", actionType := "reasoning" }],
             currentStep := 1, status := .planning, strategy := "step_by_step" } : Plan).steps[i]?) ∧
    (replanAdjust
        { goal := "g", steps := [{ id := "a", description := "da", actionType := "reasoning" },
                                 { id := "b", description := "db", actionType := "reasoning" }],
          currentStep := 1, status := .planning, strategy := "step_by_step" }
        (some [{ description := some "new step" }]) none "fix").steps.drop 1
      = adjustedSteps "fix" (some 1) [{ description := some "new step" }] := by
  have h := replan_adjust_frame
    { goal := "g", steps := [{ id := "a", description := "da", actionType := "reasoning" },
                             { id := "b", description := "db", actionType := "reasoning" }],
      currentStep := 1, status := .planning, strategy := "step_by_step" }
    [{ description := some "new step" }] none "fix" (by decide)
  simpa using h

end DweepBot
